import Mathlib

/-!
Shallow embedding of the animal-repellent detection system
(`detection.py`, `database.py`, `camera.py`) for checking the
natural-language specification against the code.

Modelling conventions:
* Timestamps (`time.time()`) are modelled as `Int` seconds.
* The Python dict `last_alert_time` is modelled as an association list
  `List (String × Int)` with lookup-first-match / in-place-update semantics.
* Confidences and pixel coordinates (Python floats) are modelled as `ℚ`;
  Python `int(...)` truncation toward zero is `pyInt`.
* Side-effecting channels (sound, e-mail, SQLite inserts) are driven by
  explicit outcome oracles: per triggered alert the oracle says whether the
  channel action succeeds or raises, and the embedding propagates the
  outcome exactly the way the Python control flow does.
-/

namespace AnimalRepellent

/-! ## Cooldown gate (`detection.py`, `should_send_alert`) -/

/-- `animal_type in last_alert_time` / `last_alert_time[animal_type]`:
first-match lookup in the association list modelling the Python dict. -/
def lookupTime : List (String × Int) → String → Option Int
  | [], _ => none
  | (k, v) :: rest, key => if k = key then some v else lookupTime rest key

/-- `last_alert_time[animal_type] = current_time`: in-place update of the
dict entry, appending when the key is absent. -/
def insertTime : List (String × Int) → String → Int → List (String × Int)
  | [], key, v => [(key, v)]
  | (k, w) :: rest, key, v =>
      if k = key then (key, v) :: rest else (k, w) :: insertTime rest key v

/-- `should_send_alert(animal_type)` from `detection.py`, with the global
dict and the current time passed explicitly.  Returns the boolean result
together with the updated dict. -/
def should_send_alert (cooldown : Int) (last : List (String × Int))
    (animal_type : String) (current_time : Int) : Bool × List (String × Int) :=
  match lookupTime last animal_type with
  | none => (true, insertTime last animal_type current_time)
  | some t =>
      if cooldown ≤ current_time - t then
        (true, insertTime last animal_type current_time)
      else
        (false, last)

/-- Results of a sequence of `should_send_alert` calls
(label, timestamp pairs), starting from dict `st`. -/
def gateRun (cooldown : Int) (st : List (String × Int)) :
    List (String × Int) → List Bool
  | [] => []
  | (l, t) :: rest =>
      (should_send_alert cooldown st l t).1 ::
        gateRun cooldown (should_send_alert cooldown st l t).2 rest

/-- Final dict after a sequence of `should_send_alert` calls. -/
def gateRunSt (cooldown : Int) (st : List (String × Int)) :
    List (String × Int) → List (String × Int)
  | [] => st
  | (l, t) :: rest => gateRunSt cooldown (should_send_alert cooldown st l t).2 rest

/-! ## Detection pipeline (`detection.py`, `main`) -/

/-- One classifier box as `main` reads it: `model.names[cls].lower()`,
`float(box.conf[0])`, and xyxy coordinates in the processing frame. -/
structure RawBox where
  label : String
  conf : ℚ
  x1 : ℚ
  y1 : ℚ
  x2 : ℚ
  y2 : ℚ
deriving DecidableEq

/-- Python `int(...)` on a float: truncation toward zero. -/
def pyInt (q : ℚ) : Int := if 0 ≤ q then ⌊q⌋ else ⌈q⌉

/-- Frame geometry: original capture size (`frame.shape[1]`, `frame.shape[0]`)
and processing size after `cv2.resize` (`process_frame.shape`). -/
structure FrameDims where
  origW : ℚ
  origH : ℚ
  procW : ℚ
  procH : ℚ

/-- Coordinate rescaling in `main`:
`scale_x = frame.shape[1] / process_frame.shape[1]`,
`scale_y = frame.shape[0] / process_frame.shape[0]`,
`x1, y1 = int(x1 * scale_x), int(y1 * scale_y)` and likewise for x2, y2. -/
def rescaleBox (dims : FrameDims) (b : RawBox) : Int × Int × Int × Int :=
  let scale_x := dims.origW / dims.procW
  let scale_y := dims.origH / dims.procH
  (pyInt (b.x1 * scale_x), pyInt (b.y1 * scale_y),
   pyInt (b.x2 * scale_x), pyInt (b.y2 * scale_y))

/-- Modelled from the spec's words, for comparison with `rescaleBox`:
rescaling back to original coordinates as
`(x1*W/w, y1*H/h, x2*W/w, y2*H/h)` in exact arithmetic. -/
def specRescale (dims : FrameDims) (b : RawBox) : ℚ × ℚ × ℚ × ℚ :=
  (b.x1 * dims.origW / dims.procW, b.y1 * dims.origH / dims.procH,
   b.x2 * dims.origW / dims.procW, b.y2 * dims.origH / dims.procH)

/-- Row created by `add_detection` in `database.py`
(`INSERT INTO detections (user_id, animal_type, location)`). -/
structure DetectionRecord where
  user_id : Nat
  animal_type : String
  location : Option String
deriving DecidableEq

/-- `add_detection(user_id, animal_type, location)`: the row the INSERT
appends to the `detections` table. -/
def add_detection (user_id : Nat) (animal_type : String)
    (location : Option String) : DetectionRecord :=
  ⟨user_id, animal_type, location⟩

/-- Row created by `add_alert` in `database.py`
(`INSERT INTO alerts (user_id, message, alert_type)`). -/
structure AlertRecord where
  user_id : Nat
  message : String
  alert_type : String
deriving DecidableEq

/-- `add_alert(user_id, message, alert_type)`: the row the INSERT appends
to the `alerts` table. -/
def add_alert (user_id : Nat) (message : String) (alert_type : String) :
    AlertRecord :=
  ⟨user_id, message, alert_type⟩

/-- The configuration surface `main` reads
(`TARGET_ANIMALS`, `DETECTION_CONFIG`, `DATABASE_CONFIG`). -/
structure DetectCfg where
  target_animals : List String
  confidence_threshold : ℚ
  alert_cooldown : Int
  user_id : Nat

/-- Per-trigger outcome oracle for the side channels.  Index `k` is the
value of `detection_count` before the `k+1`-st triggered alert.  `detOk k`
says whether that trigger's `add_detection` INSERT succeeds, `alertOk k`
whether its `add_alert` INSERT succeeds, and `soundOk`/`emailOk` give the
sound and e-mail threads' outcomes. -/
structure SideOracle where
  detOk : Nat → Bool
  alertOk : Nat → Bool
  soundOk : Nat → Bool
  emailOk : Nat → Bool

/-- Observable state of one detection run: the cooldown dict
`last_alert_time`, the counter `detection_count`, the rows accumulated in
the `detections` and `alerts` tables, the rescaled boxes drawn on the
display frame, and the per-trigger sound/e-mail outcomes (log only). -/
structure LoopState where
  last_alert_time : List (String × Int)
  detection_count : Nat
  detections : List DetectionRecord
  alerts : List AlertRecord
  drawn : List (Int × Int × Int × Int)
  channel_log : List (Bool × Bool)

/-- State at loop start: empty dict, zero alerts, empty tables. -/
def initialState : LoopState := ⟨[], 0, [], [], [], []⟩

/-- `detected_animals.add(label)` (Python set semantics up to membership). -/
def insertSet (s : List String) (x : String) : List String :=
  if x ∈ s then s else s ++ [x]

/-- One classifier box inside `main`'s inner loop: the
`label in TARGET_ANIMALS and confidence > confidence_threshold` filter,
`detected_animals.add`, coordinate rescaling and drawing, the cooldown
gate, and — on a triggered alert — `detection_count += 1`, the
sound/e-mail thread dispatch, and the
`try: add_detection(...); add_alert(...) except` block.  If the
`add_detection` INSERT raises, the shared handler catches it and
`add_alert` is never reached; if `add_alert` raises after `add_detection`
committed, the detection row remains. -/
def processBox (cfg : DetectCfg) (oracle : SideOracle) (dims : FrameDims)
    (now : Int) (st : LoopState) (detected : List String) (b : RawBox) :
    LoopState × List String :=
  if b.label ∈ cfg.target_animals ∧ cfg.confidence_threshold < b.conf then
    let detected' := insertSet detected b.label
    let drawn' := st.drawn ++ [rescaleBox dims b]
    let gate := should_send_alert cfg.alert_cooldown st.last_alert_time b.label now
    if gate.1 then
      let k := st.detection_count
      let detections' :=
        if oracle.detOk k then
          st.detections ++
            [add_detection cfg.user_id b.label.capitalize (some "Camera Feed")]
        else st.detections
      let alerts' :=
        if oracle.detOk k ∧ oracle.alertOk k then
          st.alerts ++
            [add_alert cfg.user_id
              (b.label.capitalize ++ " detected - Alert activated") "danger"]
        else st.alerts
      (⟨gate.2, k + 1, detections', alerts', drawn',
          st.channel_log ++ [(oracle.soundOk k, oracle.emailOk k)]⟩,
        detected')
    else
      ({ st with last_alert_time := gate.2, drawn := drawn' }, detected')
  else
    (st, detected)

/-- One frame: `detected_animals = set()`, then every box of the frame's
results processed in order. -/
def processFrame (cfg : DetectCfg) (oracle : SideOracle) (dims : FrameDims)
    (now : Int) (st : LoopState) (boxes : List RawBox) :
    LoopState × List String :=
  boxes.foldl (fun acc b => processBox cfg oracle dims now acc.1 acc.2 b) (st, [])

/-- A whole run: the captured frames with their timestamps, processed in
order starting from the given state. -/
def runLoop (cfg : DetectCfg) (oracle : SideOracle) (dims : FrameDims)
    (st : LoopState) : List (List RawBox × Int) → LoopState
  | [] => st
  | (boxes, now) :: rest =>
      runLoop cfg oracle dims (processFrame cfg oracle dims now st boxes).1 rest

/-! ## E-mail channel (`detection.py`, `send_email_alert`) -/

/-- `EMAIL_CONFIG` as the function reads it; `none` models a missing key
and `some ""` an empty value (both falsy in the Python guards). -/
structure EmailConfig where
  enabled : Bool
  sender_email : Option String
  sender_password : Option String
  recipient_email : String
  override_sender : Option String

/-- Python truthiness of an optional string config value. -/
def truthy : Option String → Bool
  | none => false
  | some s => if s = "" then false else true

/-- Outcome of the SMTP transaction (`starttls`/`login`/`send_message`). -/
inductive SmtpOutcome where
  | delivered
  | authError
  | connectError
  | otherError
deriving DecidableEq

/-- The `with smtplib.SMTP(...)` block: returns normally only when the
message is delivered, otherwise raises the corresponding exception. -/
def smtpSend : SmtpOutcome → Except SmtpOutcome Unit
  | .delivered => .ok ()
  | .authError => .error .authError
  | .connectError => .error .connectError
  | .otherError => .error .otherError

/-- What one call to `send_email_alert` did: its return value, whether a
message was composed, and how many SMTP transactions were attempted. -/
structure EmailCall where
  result : Bool
  composed : Bool
  sendAttempts : Nat
deriving DecidableEq

/-- `send_email_alert(animal_type, confidence, image_path)`: the two config
guards return `False` before anything is composed; otherwise the message is
composed and one SMTP transaction attempted, with
`except smtplib.SMTPAuthenticationError` and the catch-all
`except Exception` both swallowing the error and returning `False`. -/
def send_email_alert (cfg : EmailConfig) (transport : SmtpOutcome) : EmailCall :=
  if cfg.enabled = false then ⟨false, false, 0⟩
  else if truthy cfg.sender_email = false ∨ truthy cfg.sender_password = false then
    ⟨false, false, 0⟩
  else
    match smtpSend transport with
    | .ok _ => ⟨true, true, 1⟩
    | .error _ => ⟨false, true, 1⟩

/-! ## Process supervisor (`camera.py`) -/

/-- How `detection_process.terminate()` / `wait(timeout=2)` plays out. -/
inductive StopOutcome where
  | terminated
  | timeoutThenKilled
  | errorKillOk
  | errorKillFails
deriving DecidableEq

/-- `stop_detection_background()`: takes the tracked `detection_process`
handle, returns the handle afterwards plus the process-control actions
performed.  `if detection_process:` skips everything when no process is
tracked; otherwise `terminate`/`wait`, with `TimeoutExpired` and generic
exceptions handled by `kill` (itself guarded by a bare `except`), and the
`finally` clause always clears the handle. -/
def stop_detection_background (detection_process : Option Nat)
    (outcome : StopOutcome) : Option Nat × List String :=
  match detection_process with
  | none => (none, [])
  | some _ =>
      match outcome with
      | .terminated => (none, ["terminate", "wait"])
      | .timeoutThenKilled => (none, ["terminate", "wait", "kill", "wait"])
      | .errorKillOk => (none, ["terminate", "kill"])
      | .errorKillFails => (none, ["terminate", "kill"])

@[simp] theorem lookupTime_insertTime_self (m : List (String × Int))
    (k : String) (v : Int) : lookupTime (insertTime m k v) k = some v := by
  induction m with
  | nil => simp [insertTime, lookupTime]
  | cons p rest ih =>
      obtain ⟨k', v'⟩ := p
      by_cases h : k' = k <;> simp [insertTime, lookupTime, h, ih]

theorem lookupTime_insertTime_ne (m : List (String × Int))
    (k k' : String) (v : Int) (h : k ≠ k') :
    lookupTime (insertTime m k v) k' = lookupTime m k' := by
  induction m with
  | nil => simp [insertTime, lookupTime, h]
  | cons p rest ih =>
      obtain ⟨a, b⟩ := p
      by_cases ha : a = k
      · subst ha
        simp [insertTime, lookupTime, h]
      · simp [insertTime, lookupTime, ha, ih]

/-- A call for one label never touches the dict entry of another label
(both on the suppressed and on the triggered branch). -/
theorem should_send_alert_frame (cooldown : Int) (last : List (String × Int))
    (a b : String) (t : Int) (hab : a ≠ b) :
    lookupTime (should_send_alert cooldown last a t).2 b = lookupTime last b := by
  unfold should_send_alert
  cases h : lookupTime last a with
  | none => simpa using lookupTime_insertTime_ne last a b t hab
  | some x =>
      by_cases hc : cooldown ≤ t - x
      · simpa [hc] using lookupTime_insertTime_ne last a b t hab
      · simp [hc]

/-- Whenever a call returns `true`, it records the current time for its label. -/
theorem should_send_alert_records (cooldown : Int) (last : List (String × Int))
    (a : String) (t : Int)
    (h : (should_send_alert cooldown last a t).1 = true) :
    lookupTime (should_send_alert cooldown last a t).2 a = some t := by
  unfold should_send_alert at h ⊢
  cases hl : lookupTime last a with
  | none => simp
  | some x =>
      by_cases hc : cooldown ≤ t - x
      · simp [hc]
      · simp [hl, hc] at h

/-- A suppressed call leaves the dict unchanged. -/
theorem should_send_alert_suppressed (cooldown : Int) (last : List (String × Int))
    (a : String) (t : Int)
    (h : (should_send_alert cooldown last a t).1 = false) :
    (should_send_alert cooldown last a t).2 = last := by
  unfold should_send_alert at h ⊢
  cases hl : lookupTime last a with
  | none => simp [hl] at h
  | some x =>
      by_cases hc : cooldown ≤ t - x
      · simp [hl, hc] at h
      · simp [hc]

/-- When the label has a recorded time, the result is exactly the
boundary-inclusive comparison `cooldown ≤ now - last`. -/
theorem should_send_alert_fst_of_some (cooldown : Int) (last : List (String × Int))
    (a : String) (t x : Int) (h : lookupTime last a = some x) :
    (should_send_alert cooldown last a t).1 = decide (cooldown ≤ t - x) := by
  unfold should_send_alert
  rw [h]
  by_cases hc : cooldown ≤ t - x <;> simp [hc]

@[simp] theorem gateRun_length (c : Int) (st calls : List (String × Int)) :
    (gateRun c st calls).length = calls.length := by
  induction calls generalizing st with
  | nil => rfl
  | cons p rest ih =>
      obtain ⟨l, t⟩ := p
      simp [gateRun, ih]

theorem gateRun_append (c : Int) (st xs ys : List (String × Int)) :
    gateRun c st (xs ++ ys) = gateRun c st xs ++ gateRun c (gateRunSt c st xs) ys := by
  induction xs generalizing st with
  | nil => rfl
  | cons p rest ih =>
      obtain ⟨l, t⟩ := p
      simp [gateRun, gateRunSt, ih]

theorem gateRunSt_append (c : Int) (st xs ys : List (String × Int)) :
    gateRunSt c st (xs ++ ys) = gateRunSt c (gateRunSt c st xs) ys := by
  induction xs generalizing st with
  | nil => rfl
  | cons p rest ih =>
      obtain ⟨l, t⟩ := p
      simp [gateRunSt, ih]

/-- A run containing no call for `L` never creates an entry for `L`. -/
theorem gateRunSt_lookup_none (c : Int) (calls : List (String × Int)) :
    ∀ st : List (String × Int), ∀ L : String,
      lookupTime st L = none → (∀ p ∈ calls, p.1 ≠ L) →
      lookupTime (gateRunSt c st calls) L = none := by
  induction calls with
  | nil => intro st L hst _; exact hst
  | cons p rest ih =>
      obtain ⟨l, t⟩ := p
      intro st L hst hcalls
      have hl : l ≠ L := hcalls (l, t) (List.mem_cons_self _ _)
      have hframe := should_send_alert_frame c st l L t hl
      exact ih _ L (hframe.trans hst) fun q hq => hcalls q (List.mem_cons_of_mem _ hq)

/-- Core cooldown bound: starting from a dict that records time `t` for `L`,
every later triggered call for `L` in a time-sorted run is at least the
cooldown interval after `t`. -/
theorem gateRun_cooldown_of_lookup (c : Int) (calls : List (String × Int)) :
    ∀ (st : List (String × Int)) (L : String) (t : Int),
      lookupTime st L = some t →
      (∀ p ∈ calls, t ≤ p.2) →
      calls.Pairwise (fun a b => a.2 ≤ b.2) →
      ∀ j, ∀ hj : j < calls.length, (calls.get ⟨j, hj⟩).1 = L →
        (gateRun c st calls)[j]? = some true →
        c ≤ (calls.get ⟨j, hj⟩).2 - t := by
  induction calls with
  | nil =>
      intro st L t _ _ _ j hj
      exact absurd hj (by simp)
  | cons p rest ih =>
      obtain ⟨l, now⟩ := p
      intro st L t hst hall hpw j hj hlab hres
      have hall' : ∀ q ∈ rest, t ≤ q.2 := fun q hq => hall q (List.mem_cons_of_mem _ hq)
      have hpw' : rest.Pairwise (fun a b => a.2 ≤ b.2) := List.Pairwise.of_cons hpw
      match j with
      | 0 =>
          have hlL : l = L := hlab
          subst hlL
          simp only [gateRun, List.getElem?_cons_zero, Option.some.injEq] at hres
          rw [should_send_alert_fst_of_some c st l now t hst] at hres
          simpa using of_decide_eq_true hres
      | Nat.succ k =>
          have hk : k < rest.length := by
            simpa [Nat.succ_lt_succ_iff] using hj
          have hres' : (gateRun c (should_send_alert c st l now).2 rest)[k]? = some true := by
            simpa [gateRun] using hres
          have hlab' : (rest.get ⟨k, hk⟩).1 = L := hlab
          by_cases hlL : l = L
          · subst hlL
            by_cases hb : (should_send_alert c st l now).1 = true
            · have hrec := should_send_alert_records c st l now hb
              have htnow : t ≤ now := hall (l, now) (List.mem_cons_self _ _)
              have hnowrest : ∀ q ∈ rest, now ≤ q.2 := (List.pairwise_cons.mp hpw).1
              have hrecur := ih (should_send_alert c st l now).2 l now hrec hnowrest hpw'
                k hk hlab' hres'
              have hgoal : c ≤ (rest.get ⟨k, hk⟩).2 - now := hrecur
              show c ≤ (rest.get ⟨k, hk⟩).2 - t
              omega
            · have hb' : (should_send_alert c st l now).1 = false := by
                simpa using hb
              have hst2 := should_send_alert_suppressed c st l now hb'
              rw [hst2] at hres'
              exact ih st l t hst hall' hpw' k hk hlab' hres'
          · have hframe := should_send_alert_frame c st l L now hlL
            exact ih (should_send_alert c st l now).2 L t (hframe.trans hst)
              hall' hpw' k hk hlab' hres'

/-- A label with no recorded time always passes and gets the current time
recorded (`if animal_type not in last_alert_time`). -/
theorem should_send_alert_first (cooldown : Int) (last : List (String × Int))
    (a : String) (t : Int) (h : lookupTime last a = none) :
    should_send_alert cooldown last a t = (true, insertTime last a t) := by
  unfold should_send_alert
  rw [h]

/-- C2 helper: the result at index `i` of a run is the gate applied to the
state reached after the first `i` calls. -/
theorem gateRun_getElem_eq (c : Int) (calls : List (String × Int))
    (i : Nat) (hi : i < calls.length) :
    (gateRun c [] calls)[i]? =
      some (should_send_alert c (gateRunSt c [] (calls.take i))
        (calls.get ⟨i, hi⟩).1 (calls.get ⟨i, hi⟩).2).1 := by
  have hsplit : calls.take i ++ calls.drop i = calls := List.take_append_drop _ _
  have hlen : (calls.take i).length = i := by
    rw [List.length_take]; omega
  have hrun := gateRun_append c [] (calls.take i) (calls.drop i)
  rw [hsplit] at hrun
  rw [hrun, List.getElem?_append_right (by simp [hlen])]
  have hdrop : calls.drop i = calls.get ⟨i, hi⟩ :: calls.drop (i + 1) := by
    rw [List.get_eq_getElem]
    exact List.drop_eq_getElem_cons hi
  rw [hdrop]
  simp [gateRun, hlen]

/-- C2 helper: the state after the first `i+1` calls is the gate update of
call `i` applied to the state after the first `i` calls. -/
theorem gateRunSt_take_succ (c : Int) (calls : List (String × Int))
    (i : Nat) (hi : i < calls.length) :
    gateRunSt c [] (calls.take (i + 1)) =
      (should_send_alert c (gateRunSt c [] (calls.take i))
        (calls.get ⟨i, hi⟩).1 (calls.get ⟨i, hi⟩).2).2 := by
  rw [List.take_succ, List.getElem?_eq_getElem hi, gateRunSt_append]
  simp [gateRunSt]

/-- C2: for every label `L` and every sequence of `should_send_alert` calls
with non-decreasing timestamps, no two calls that return `true` for `L` have
timestamps closer than the configured cooldown interval; and the very first
call for `L` (no earlier call for `L` in the run) returns `true` regardless
of its timestamp. -/
theorem cooldown_interval_invariant (c : Int) (calls : List (String × Int))
    (hpw : calls.Pairwise fun a b => a.2 ≤ b.2) :
    (∀ (L : String) (i j : Nat), ∀ hij : i < j, ∀ hj : j < calls.length,
      (calls.get ⟨i, lt_trans hij hj⟩).1 = L → (calls.get ⟨j, hj⟩).1 = L →
      (gateRun c [] calls)[i]? = some true →
      (gateRun c [] calls)[j]? = some true →
      c ≤ (calls.get ⟨j, hj⟩).2 - (calls.get ⟨i, lt_trans hij hj⟩).2) ∧
    (∀ i : Nat, ∀ hi : i < calls.length,
      (∀ p ∈ calls.take i, p.1 ≠ (calls.get ⟨i, hi⟩).1) →
      (gateRun c [] calls)[i]? = some true) := by
  constructor
  · intro L i j hij hj hLi hLj hbi hbj
    have hi : i < calls.length := lt_trans hij hj
    have hbtrue : (should_send_alert c (gateRunSt c [] (calls.take i))
        (calls.get ⟨i, hi⟩).1 (calls.get ⟨i, hi⟩).2).1 = true := by
      rw [gateRun_getElem_eq c calls i hi] at hbi
      simpa using hbi
    have hst1 : lookupTime (gateRunSt c [] (calls.take (i + 1)))
        (calls.get ⟨i, hi⟩).1 = some (calls.get ⟨i, hi⟩).2 := by
      rw [gateRunSt_take_succ c calls i hi]
      exact should_send_alert_records _ _ _ _ hbtrue
    have hlenpre : (calls.take (i + 1)).length = i + 1 := by
      rw [List.length_take]; omega
    have hsplit : calls.take (i + 1) ++ calls.drop (i + 1) = calls :=
      List.take_append_drop _ _
    have hrun := gateRun_append c [] (calls.take (i + 1)) (calls.drop (i + 1))
    rw [hsplit] at hrun
    have hk : j - (i + 1) < (calls.drop (i + 1)).length := by
      rw [List.length_drop]; omega
    have hbj' : (gateRun c (gateRunSt c [] (calls.take (i + 1)))
        (calls.drop (i + 1)))[j - (i + 1)]? = some true := by
      rw [hrun, List.getElem?_append_right (by simp [hlenpre]; omega)] at hbj
      simpa [hlenpre] using hbj
    have hpw2 := hpw
    rw [← hsplit] at hpw2
    obtain ⟨hpwpre, hpwsuf, hcross⟩ := List.pairwise_append.mp hpw2
    have hmem : calls.get ⟨i, hi⟩ ∈ calls.take (i + 1) := by
      have h0 : i < (calls.take (i + 1)).length := by rw [hlenpre]; omega
      have h1 : (calls.take (i + 1)).get ⟨i, h0⟩ = calls.get ⟨i, hi⟩ := by
        simp [List.get_eq_getElem, List.getElem_take]
      rw [← h1]
      exact List.get_mem _ _ _
    have hallsuf : ∀ p ∈ calls.drop (i + 1), (calls.get ⟨i, hi⟩).2 ≤ p.2 :=
      fun p hp => hcross _ hmem p hp
    have hfix : (calls.drop (i + 1)).get ⟨j - (i + 1), hk⟩ = calls.get ⟨j, hj⟩ := by
      have h1 : (i + 1) + (j - (i + 1)) = j := by omega
      have h2 : (calls.drop (i + 1)).get ⟨j - (i + 1), hk⟩
          = calls.get ⟨(i + 1) + (j - (i + 1)), by omega⟩ := by
        simp [List.get_eq_getElem, List.getElem_drop]
      rw [h2]
      congr 1
      exact Fin.ext h1
    have hlab : ((calls.drop (i + 1)).get ⟨j - (i + 1), hk⟩).1 = L := by
      rw [hfix]; exact hLj
    have hmain := gateRun_cooldown_of_lookup c (calls.drop (i + 1))
      (gateRunSt c [] (calls.take (i + 1))) L (calls.get ⟨i, hi⟩).2
      (hLi ▸ hst1) hallsuf hpwsuf (j - (i + 1)) hk hlab hbj'
    rw [hfix] at hmain
    exact hmain
  · intro i hi hfirst
    rw [gateRun_getElem_eq c calls i hi]
    have hnone : lookupTime (gateRunSt c [] (calls.take i))
        (calls.get ⟨i, hi⟩).1 = none :=
      gateRunSt_lookup_none c (calls.take i) [] _ rfl hfirst
    rw [should_send_alert_first c _ _ _ hnone]

/-- Witness for C2 at cooldown 60 and calls dog@0, dog@30, dog@61: the two
triggered calls (indices 0 and 2) are 61 ≥ 60 seconds apart, and the first
dog call fires. -/
theorem cooldown_interval_invariant_witness :
    (60 : Int) ≤ 61 - 0 ∧
      (gateRun 60 [] [("dog", 0), ("dog", 30), ("dog", 61)])[0]? = some true := by
  have h := cooldown_interval_invariant 60 [("dog", 0), ("dog", 30), ("dog", 61)]
    (by decide)
  constructor
  · exact h.1 "dog" 0 2 (by omega) (by decide) rfl rfl (by decide) (by decide)
  · exact h.2 0 (by decide) (by simp)

/-- A gate call for one label is insensitive to everything in the dict
except that label's own entry. -/
theorem should_send_alert_congr (cooldown : Int) (s1 s2 : List (String × Int))
    (b : String) (t : Int) (h : lookupTime s1 b = lookupTime s2 b) :
    (should_send_alert cooldown s1 b t).1 = (should_send_alert cooldown s2 b t).1 ∧
      lookupTime (should_send_alert cooldown s1 b t).2 b
        = lookupTime (should_send_alert cooldown s2 b t).2 b := by
  unfold should_send_alert
  rw [h]
  cases h2 : lookupTime s2 b with
  | none => simp
  | some x =>
      by_cases hc : cooldown ≤ t - x
      · simp [hc]
      · simp [hc, h, h2]

/-- C4: for a label with no entry in the cooldown dict (never seen before),
`should_send_alert` returns `true` regardless of the current time, and as a
side effect records the current time as the label's last-alert-time. -/
theorem first_call_fires_and_records (cooldown : Int) (last : List (String × Int))
    (label : String) (now : Int) (h : lookupTime last label = none) :
    (should_send_alert cooldown last label now).1 = true ∧
      lookupTime (should_send_alert cooldown last label now).2 label = some now := by
  rw [should_send_alert_first cooldown last label now h]
  simp

/-- Witness for C4: an unseen label fires even at a negative timestamp and
its time is recorded. -/
theorem first_call_fires_and_records_witness :
    (should_send_alert 60 [("cat", 5)] "dog" (-100)).1 = true ∧
      lookupTime (should_send_alert 60 [("cat", 5)] "dog" (-100)).2 "dog"
        = some (-100) :=
  first_call_fires_and_records 60 [("cat", 5)] "dog" (-100) (by decide)

/-- C5: for a label recorded at time `t`, the gate fires and re-records the
current time exactly when `now - t ≥ cooldown` (boundary inclusive), and
otherwise returns `false` leaving the dict completely unchanged. -/
theorem cooldown_boundary_behavior (cooldown : Int) (last : List (String × Int))
    (label : String) (now t : Int) (h : lookupTime last label = some t) :
    (cooldown ≤ now - t →
      should_send_alert cooldown last label now = (true, insertTime last label now)) ∧
    (now - t < cooldown →
      should_send_alert cooldown last label now = (false, last)) := by
  unfold should_send_alert
  rw [h]
  constructor
  · intro hc
    simp [hc]
  · intro hc
    have hc' : ¬ cooldown ≤ now - t := by omega
    simp [hc']

/-- Witness for C5 with cooldown 60: dog last alerted at t0 = 0 is
suppressed at t0+30 with the dict untouched, and fires at t0+61 with the
dict updated. -/
theorem cooldown_boundary_behavior_witness :
    should_send_alert 60 [("dog", 0)] "dog" 30 = (false, [("dog", 0)]) ∧
      should_send_alert 60 [("dog", 0)] "dog" 61 = (true, [("dog", 61)]) := by
  constructor
  · exact (cooldown_boundary_behavior 60 [("dog", 0)] "dog" 30 0 (by decide)).2
      (by omega)
  · exact ((cooldown_boundary_behavior 60 [("dog", 0)] "dog" 61 0 (by decide)).1
      (by omega)).trans (by decide)

/-- C6: a gate call for label `a` neither reads nor modifies the entry of a
different label `b`: `b`'s entry is untouched, and a subsequent call for
`b` returns the same result, with the same effect on `b`'s entry, whether
or not the call for `a` happened. -/
theorem category_independence (cooldown : Int) (last : List (String × Int))
    (a b : String) (ta tb : Int) (hab : a ≠ b) :
    lookupTime (should_send_alert cooldown last a ta).2 b = lookupTime last b ∧
    (should_send_alert cooldown (should_send_alert cooldown last a ta).2 b tb).1
      = (should_send_alert cooldown last b tb).1 ∧
    lookupTime (should_send_alert cooldown
        (should_send_alert cooldown last a ta).2 b tb).2 b
      = lookupTime (should_send_alert cooldown last b tb).2 b := by
  have hframe := should_send_alert_frame cooldown last a b ta hab
  have hcongr := should_send_alert_congr cooldown
    (should_send_alert cooldown last a ta).2 last b tb hframe
  exact ⟨hframe, hcongr.1, hcongr.2⟩

/-- Witness for C6: a dog call at t = 100 does not disturb cat's entry nor
a later cat call at t = 50. -/
theorem category_independence_witness :
    lookupTime (should_send_alert 60 [("cat", 10)] "dog" 100).2 "cat"
      = lookupTime [("cat", 10)] "cat" ∧
    (should_send_alert 60 (should_send_alert 60 [("cat", 10)] "dog" 100).2 "cat" 50).1
      = (should_send_alert 60 [("cat", 10)] "cat" 50).1 ∧
    lookupTime (should_send_alert 60
        (should_send_alert 60 [("cat", 10)] "dog" 100).2 "cat" 50).2 "cat"
      = lookupTime (should_send_alert 60 [("cat", 10)] "cat" 50).2 "cat" :=
  category_independence 60 [("cat", 10)] "dog" "cat" 100 50 (by decide)

/-- C8: whenever the SMTP transaction does not deliver (auth failure,
connect failure, or any other exception), `send_email_alert` returns
`False` — both exception handlers swallow the error so nothing propagates
to the caller — and at most one SMTP transaction is attempted (no retry). -/
theorem email_failure_swallowed (cfg : EmailConfig) (transport : SmtpOutcome)
    (h : transport ≠ SmtpOutcome.delivered) :
    (send_email_alert cfg transport).result = false ∧
      (send_email_alert cfg transport).sendAttempts ≤ 1 := by
  by_cases h1 : cfg.enabled = false
  · simp [send_email_alert, h1]
  · by_cases h2 : truthy cfg.sender_email = false ∨ truthy cfg.sender_password = false
    · simp [send_email_alert, h1, h2]
    · cases transport with
      | delivered => exact absurd rfl h
      | authError => simp [send_email_alert, h1, h2, smtpSend]
      | connectError => simp [send_email_alert, h1, h2, smtpSend]
      | otherError => simp [send_email_alert, h1, h2, smtpSend]

/-- Witness for C8: fully configured e-mail, authentication failure:
result is `False` after a single attempt. -/
theorem email_failure_swallowed_witness :
    (send_email_alert ⟨true, some "svc@example.com", some "apppw", "to@example.com", none⟩
        SmtpOutcome.authError).result = false ∧
      (send_email_alert ⟨true, some "svc@example.com", some "apppw", "to@example.com", none⟩
        SmtpOutcome.authError).sendAttempts ≤ 1 :=
  email_failure_swallowed
    ⟨true, some "svc@example.com", some "apppw", "to@example.com", none⟩
    SmtpOutcome.authError (by decide)

/-- C10: when the e-mail channel is disabled, or the configured sender
e-mail or sender password is missing/empty, `send_email_alert` returns
`False` without composing a message and without attempting any SMTP
transaction. -/
theorem email_guards_short_circuit (cfg : EmailConfig) (transport : SmtpOutcome)
    (h : cfg.enabled = false ∨ truthy cfg.sender_email = false ∨
      truthy cfg.sender_password = false) :
    send_email_alert cfg transport = ⟨false, false, 0⟩ := by
  unfold send_email_alert
  by_cases h1 : cfg.enabled = false
  · simp [h1]
  · have h2 : truthy cfg.sender_email = false ∨ truthy cfg.sender_password = false := by
      rcases h with h | h | h
      · exact absurd h h1
      · exact Or.inl h
      · exact Or.inr h
    simp [h1, h2]

/-- Witness for C10: enabled channel but empty sender password: nothing is
composed or sent, even though the transport would have delivered. -/
theorem email_guards_short_circuit_witness :
    send_email_alert ⟨true, some "svc@example.com", some "", "to@example.com", none⟩
        SmtpOutcome.delivered = ⟨false, false, 0⟩ :=
  email_guards_short_circuit
    ⟨true, some "svc@example.com", some "", "to@example.com", none⟩
    SmtpOutcome.delivered (by decide)

/-- C9: `stop_detection_background` is a total function of the tracked
handle and the termination outcome (never raises), always clears the
handle, performs no process-control action when nothing is tracked, and so
a second stop — stop-after-stop or stop-when-never-started — is a no-op. -/
theorem stop_idempotent (p : Option Nat) (o1 o2 : StopOutcome) :
    (stop_detection_background p o1).1 = none ∧
      stop_detection_background none o2 = (none, []) ∧
      stop_detection_background (stop_detection_background p o1).1 o2 = (none, []) := by
  refine ⟨?_, rfl, ?_⟩
  · cases p <;> cases o1 <;> rfl
  · cases p <;> cases o1 <;> rfl

/-- C7 counterexample: original 1280×720 resized to 640×480, box
(100, 101, 200, 200): the code computes `int(101 * 1.5) = 151` for y1,
while the claimed formula `y1*H/h` gives `151.5`, so the code does not
rescale to `(x1*W/w, y1*H/h, x2*W/w, y2*H/h)` exactly. -/
theorem rescale_not_exact_formula :
    (((rescaleBox ⟨1280, 720, 640, 480⟩ ⟨"dog", 1, 100, 101, 200, 200⟩).2.1 : ℚ)
        = (specRescale ⟨1280, 720, 640, 480⟩ ⟨"dog", 1, 100, 101, 200, 200⟩).2.1) = False :=
  eq_false (by norm_num [rescaleBox, specRescale, pyInt])

/-- C7 amended: for every candidate box the loop draws the box rescaled by
`W/w` and `H/h` with each coordinate truncated toward zero by `int(...)`;
on the concrete case 1280×720 from 640×480 with box (100,100,200,200) the
products are exact and the result is (200,150,400,300). -/
theorem rescale_truncated_formula (cfg : DetectCfg) (oracle : SideOracle)
    (dims : FrameDims) (now : Int) (st : LoopState) (det : List String)
    (b : RawBox)
    (hcand : b.label ∈ cfg.target_animals ∧ cfg.confidence_threshold < b.conf) :
    (processBox cfg oracle dims now st det b).1.drawn
        = st.drawn ++ [rescaleBox dims b] ∧
    rescaleBox dims b =
      (pyInt (b.x1 * dims.origW / dims.procW), pyInt (b.y1 * dims.origH / dims.procH),
       pyInt (b.x2 * dims.origW / dims.procW), pyInt (b.y2 * dims.origH / dims.procH)) ∧
    rescaleBox ⟨1280, 720, 640, 480⟩ ⟨"dog", 1, 100, 100, 200, 200⟩
      = (200, 150, 400, 300) := by
  refine ⟨?_, ?_, by norm_num [rescaleBox, pyInt, Prod.ext_iff]⟩
  · unfold processBox
    rw [if_pos hcand]
    by_cases hg : (should_send_alert cfg.alert_cooldown st.last_alert_time b.label now).1
    · simp [hg]
    · simp [hg]
  · simp [rescaleBox, mul_div_assoc]

/-- Witness for C7 (amended): the concrete candidate dog box
(100,100,200,200) in a 640×480 processing frame of a 1280×720 capture is
drawn at (200,150,400,300). -/
theorem rescale_truncated_formula_witness :
    (processBox ⟨["dog"], 1/2, 60, 1⟩
        ⟨fun _ => true, fun _ => true, fun _ => true, fun _ => true⟩
        ⟨1280, 720, 640, 480⟩ 0 initialState []
        ⟨"dog", 9/10, 100, 100, 200, 200⟩).1.drawn
      = initialState.drawn ++ [rescaleBox ⟨1280, 720, 640, 480⟩
          ⟨"dog", 9/10, 100, 100, 200, 200⟩] :=
  (rescale_truncated_formula ⟨["dog"], 1/2, 60, 1⟩
    ⟨fun _ => true, fun _ => true, fun _ => true, fun _ => true⟩
    ⟨1280, 720, 640, 480⟩ 0 initialState []
    ⟨"dog", 9/10, 100, 100, 200, 200⟩ ⟨by decide, by norm_num⟩).1

theorem mem_insertSet (s : List String) (x L : String) :
    L ∈ insertSet s x ↔ L ∈ s ∨ L = x := by
  unfold insertSet
  by_cases h : x ∈ s
  · rw [if_pos h]
    constructor
    · exact Or.inl
    · rintro (hL | rfl)
      · exact hL
      · exact h
  · rw [if_neg h]
    simp

/-- The detected-animals component of one box step. -/
theorem processBox_snd (cfg : DetectCfg) (oracle : SideOracle) (dims : FrameDims)
    (now : Int) (st : LoopState) (det : List String) (b : RawBox) :
    (processBox cfg oracle dims now st det b).2 =
      if b.label ∈ cfg.target_animals ∧ cfg.confidence_threshold < b.conf
      then insertSet det b.label else det := by
  unfold processBox
  by_cases hc : b.label ∈ cfg.target_animals ∧ cfg.confidence_threshold < b.conf
  · rw [if_pos hc, if_pos hc]
    by_cases hg : (should_send_alert cfg.alert_cooldown st.last_alert_time b.label now).1
    · simp [hg]
    · simp [hg]
  · rw [if_neg hc, if_neg hc]

/-- Detected-animals effect of one box: the label joins the set exactly when
the box passes the target-and-threshold filter. -/
theorem processBox_detected (cfg : DetectCfg) (oracle : SideOracle) (dims : FrameDims)
    (now : Int) (st : LoopState) (det : List String) (b : RawBox) (L : String) :
    L ∈ (processBox cfg oracle dims now st det b).2 ↔
      L ∈ det ∨ (b.label = L ∧ b.label ∈ cfg.target_animals ∧
        cfg.confidence_threshold < b.conf) := by
  rw [processBox_snd]
  by_cases hc : b.label ∈ cfg.target_animals ∧ cfg.confidence_threshold < b.conf
  · obtain ⟨hc1, hc2⟩ := hc
    rw [if_pos ⟨hc1, hc2⟩, mem_insertSet]
    constructor
    · rintro (h | rfl)
      · exact Or.inl h
      · exact Or.inr ⟨rfl, hc1, hc2⟩
    · rintro (h | ⟨rfl, _, _⟩)
      · exact Or.inl h
      · exact Or.inr rfl
  · rw [if_neg hc]
    constructor
    · exact Or.inl
    · rintro (h | ⟨_, hA, hB⟩)
      · exact h
      · exact absurd ⟨hA, hB⟩ hc

theorem processFrame_detected_aux (cfg : DetectCfg) (oracle : SideOracle)
    (dims : FrameDims) (now : Int) (boxes : List RawBox) :
    ∀ (acc : LoopState × List String) (L : String),
      L ∈ (boxes.foldl (fun a b => processBox cfg oracle dims now a.1 a.2 b) acc).2 ↔
        L ∈ acc.2 ∨ ∃ b ∈ boxes, b.label = L ∧ b.label ∈ cfg.target_animals ∧
          cfg.confidence_threshold < b.conf := by
  induction boxes with
  | nil =>
      intro acc L
      simp
  | cons b rest ih =>
      intro acc L
      simp only [List.foldl_cons]
      rw [ih]
      rw [processBox_detected]
      constructor
      · rintro ((h | hb) | ⟨x, hx, hP⟩)
        · exact Or.inl h
        · exact Or.inr ⟨b, List.mem_cons_self _ _, hb⟩
        · exact Or.inr ⟨x, List.mem_cons_of_mem _ hx, hP⟩
      · rintro (h | ⟨x, hx, hP⟩)
        · exact Or.inl (Or.inl h)
        · rcases List.mem_cons.mp hx with rfl | hx'
          · exact Or.inl (Or.inr hP)
          · exact Or.inr ⟨x, hx', hP⟩

theorem processFrame_nocand_aux (cfg : DetectCfg) (oracle : SideOracle)
    (dims : FrameDims) (now : Int) (boxes : List RawBox) :
    ∀ acc : LoopState × List String,
      (∀ b ∈ boxes, ¬ (b.label ∈ cfg.target_animals ∧ cfg.confidence_threshold < b.conf)) →
      boxes.foldl (fun a b => processBox cfg oracle dims now a.1 a.2 b) acc = acc := by
  induction boxes with
  | nil =>
      intro acc _
      rfl
  | cons b rest ih =>
      intro acc h
      simp only [List.foldl_cons]
      have hb := h b (List.mem_cons_self _ _)
      have hstep : processBox cfg oracle dims now acc.1 acc.2 b = (acc.1, acc.2) := by
        unfold processBox
        rw [if_neg hb]
      rw [hstep, Prod.mk.eta]
      exact ih acc fun q hq => h q (List.mem_cons_of_mem _ hq)

/-- C3: within a frame, a label is added to `detected_animals` iff some box
of the frame carries it with `label ∈ TARGET_ANIMALS` and
`confidence > confidence_threshold` (strict, so confidence exactly equal to
the threshold is not a candidate); and a frame with no candidate box leaves
the whole loop state untouched, so nothing is considered for alerting. -/
theorem candidate_filter (cfg : DetectCfg) (oracle : SideOracle) (dims : FrameDims)
    (now : Int) (st : LoopState) (boxes : List RawBox) (L : String) :
    (L ∈ (processFrame cfg oracle dims now st boxes).2 ↔
      ∃ b ∈ boxes, b.label = L ∧ b.label ∈ cfg.target_animals ∧
        cfg.confidence_threshold < b.conf) ∧
    ((∀ b ∈ boxes, ¬ (b.label ∈ cfg.target_animals ∧
        cfg.confidence_threshold < b.conf)) →
      processFrame cfg oracle dims now st boxes = (st, [])) := by
  constructor
  · have h := processFrame_detected_aux cfg oracle dims now boxes (st, []) L
    unfold processFrame
    simpa using h
  · intro h
    unfold processFrame
    exact processFrame_nocand_aux cfg oracle dims now boxes (st, []) h

/-- Witness for C3 with threshold 0.5: a dog box at confidence 0.51 is
detected, a dog box at exactly 0.5 is not. -/
theorem candidate_filter_witness :
    "dog" ∈ (processFrame ⟨["dog"], 1/2, 60, 1⟩
        ⟨fun _ => true, fun _ => true, fun _ => true, fun _ => true⟩
        ⟨1280, 720, 640, 480⟩ 0 initialState
        [⟨"dog", 51/100, 0, 0, 10, 10⟩]).2 ∧
    ¬ ("dog" ∈ (processFrame ⟨["dog"], 1/2, 60, 1⟩
        ⟨fun _ => true, fun _ => true, fun _ => true, fun _ => true⟩
        ⟨1280, 720, 640, 480⟩ 0 initialState
        [⟨"dog", 1/2, 0, 0, 10, 10⟩]).2) := by
  constructor
  · exact (candidate_filter _ _ _ _ _ _ _).1.mpr
      ⟨⟨"dog", 51/100, 0, 0, 10, 10⟩, by simp, rfl, by simp, by norm_num⟩
  · intro hmem
    obtain ⟨b, hb, _, _, hconf⟩ := (candidate_filter _ _ _ _ _ _ _).1.mp hmem
    simp at hb
    subst hb
    norm_num at hconf

/-- Record-count invariant: each table holds exactly one row per triggered
alert whose INSERT ran and succeeded — for the `alerts` table that requires
the same trigger's `add_detection` to have succeeded too, since both
INSERTs live in one `try` block. -/
def recordInv (oracle : SideOracle) (st : LoopState) : Prop :=
  st.detections.length = (List.range st.detection_count).countP oracle.detOk ∧
    st.alerts.length = (List.range st.detection_count).countP
      (fun k => oracle.detOk k && oracle.alertOk k)

theorem processBox_recordInv (cfg : DetectCfg) (oracle : SideOracle)
    (dims : FrameDims) (now : Int) (st : LoopState) (det : List String)
    (b : RawBox) (h : recordInv oracle st) :
    recordInv oracle (processBox cfg oracle dims now st det b).1 := by
  obtain ⟨h1, h2⟩ := h
  unfold processBox
  by_cases hc : b.label ∈ cfg.target_animals ∧ cfg.confidence_threshold < b.conf
  · rw [if_pos hc]
    by_cases hg : (should_send_alert cfg.alert_cooldown st.last_alert_time b.label now).1
    · simp only [hg]
      constructor
      · by_cases hd : oracle.detOk st.detection_count
        · simp [recordInv, hd, List.range_succ, h1]
        · simp [recordInv, hd, List.range_succ, h1]
      · by_cases hd : oracle.detOk st.detection_count
        · by_cases ha : oracle.alertOk st.detection_count
          · simp [recordInv, hd, ha, List.range_succ, h2]
          · simp [recordInv, hd, ha, List.range_succ, h2]
        · simp [recordInv, hd, List.range_succ, h2]
    · simp only [hg]
      exact ⟨h1, h2⟩
  · rw [if_neg hc]
    exact ⟨h1, h2⟩

theorem processFrame_recordInv (cfg : DetectCfg) (oracle : SideOracle)
    (dims : FrameDims) (now : Int) (boxes : List RawBox) :
    ∀ acc : LoopState × List String, recordInv oracle acc.1 →
      recordInv oracle
        (boxes.foldl (fun a b => processBox cfg oracle dims now a.1 a.2 b) acc).1 := by
  induction boxes with
  | nil =>
      intro acc h
      exact h
  | cons b rest ih =>
      intro acc h
      simp only [List.foldl_cons]
      exact ih _ (processBox_recordInv cfg oracle dims now acc.1 acc.2 b h)

theorem runLoop_recordInv (cfg : DetectCfg) (oracle : SideOracle) (dims : FrameDims)
    (frames : List (List RawBox × Int)) :
    ∀ st : LoopState, recordInv oracle st →
      recordInv oracle (runLoop cfg oracle dims st frames) := by
  induction frames with
  | nil =>
      intro st h
      exact h
  | cons f rest ih =>
      obtain ⟨boxes, now⟩ := f
      intro st h
      exact ih _ (processFrame_recordInv cfg oracle dims now boxes (st, []) h)

/-- C1 amended: when every database INSERT succeeds, a run with N triggered
alerts creates exactly N DetectionRecords and exactly N AlertRecords, for
every outcome of the sound and e-mail side channels (the oracle's `soundOk`
and `emailOk` are unconstrained).  When an `add_detection` INSERT fails,
however, the shared exception handler also skips that trigger's
`add_alert` — see the counterexample — so in general each table holds one
row per trigger whose INSERTs ran and succeeded, never duplicates. -/
theorem records_per_trigger (cfg : DetectCfg) (oracle : SideOracle)
    (dims : FrameDims) (frames : List (List RawBox × Int))
    (hdet : ∀ k, oracle.detOk k = true) (halert : ∀ k, oracle.alertOk k = true) :
    (runLoop cfg oracle dims initialState frames).detections.length
        = (runLoop cfg oracle dims initialState frames).detection_count ∧
      (runLoop cfg oracle dims initialState frames).alerts.length
        = (runLoop cfg oracle dims initialState frames).detection_count := by
  obtain ⟨h1, h2⟩ := runLoop_recordInv cfg oracle dims frames initialState ⟨rfl, rfl⟩
  constructor
  · rw [h1, List.countP_eq_length.mpr fun k _ => hdet k, List.length_range]
  · rw [h2, List.countP_eq_length.mpr ?_, List.length_range]
    intro k _
    simp [hdet k, halert k]

/-- Witness for C1 (amended): one frame with one triggering dog box, both
sound and e-mail failing: one DetectionRecord, one AlertRecord. -/
theorem records_per_trigger_witness :
    ((runLoop ⟨["dog"], 1/2, 60, 1⟩
        ⟨fun _ => true, fun _ => true, fun _ => false, fun _ => false⟩
        ⟨1280, 720, 640, 480⟩ initialState
        [([⟨"dog", 9/10, 0, 0, 10, 10⟩], 0)]).detections.length
      = (runLoop ⟨["dog"], 1/2, 60, 1⟩
        ⟨fun _ => true, fun _ => true, fun _ => false, fun _ => false⟩
        ⟨1280, 720, 640, 480⟩ initialState
        [([⟨"dog", 9/10, 0, 0, 10, 10⟩], 0)]).detection_count) ∧
    ((runLoop ⟨["dog"], 1/2, 60, 1⟩
        ⟨fun _ => true, fun _ => true, fun _ => false, fun _ => false⟩
        ⟨1280, 720, 640, 480⟩ initialState
        [([⟨"dog", 9/10, 0, 0, 10, 10⟩], 0)]).alerts.length
      = (runLoop ⟨["dog"], 1/2, 60, 1⟩
        ⟨fun _ => true, fun _ => true, fun _ => false, fun _ => false⟩
        ⟨1280, 720, 640, 480⟩ initialState
        [([⟨"dog", 9/10, 0, 0, 10, 10⟩], 0)]).detection_count) :=
  records_per_trigger ⟨["dog"], 1/2, 60, 1⟩
    ⟨fun _ => true, fun _ => true, fun _ => false, fun _ => false⟩
    ⟨1280, 720, 640, 480⟩ [([⟨"dog", 9/10, 0, 0, 10, 10⟩], 0)]
    (fun _ => rfl) (fun _ => rfl)

/-- C1 counterexample: a run with exactly one triggered alert whose
`add_detection` INSERT fails while `add_alert` would have succeeded: the
shared `try` block catches the exception before `add_alert` runs, so the
run ends with 1 triggered alert but 0 AlertRecords (and 0
DetectionRecords) — the AlertRecord for that trigger IS skipped. -/
theorem detrecord_failure_skips_alertrecord :
    ((runLoop ⟨["dog"], 1/2, 60, 1⟩
        ⟨fun _ => false, fun _ => true, fun _ => true, fun _ => true⟩
        ⟨1280, 720, 640, 480⟩ initialState
        [([⟨"dog", 9/10, 0, 0, 10, 10⟩], 0)]).detection_count = 1) ∧
    ((runLoop ⟨["dog"], 1/2, 60, 1⟩
        ⟨fun _ => false, fun _ => true, fun _ => true, fun _ => true⟩
        ⟨1280, 720, 640, 480⟩ initialState
        [([⟨"dog", 9/10, 0, 0, 10, 10⟩], 0)]).detections.length = 0) ∧
    ((runLoop ⟨["dog"], 1/2, 60, 1⟩
        ⟨fun _ => false, fun _ => true, fun _ => true, fun _ => true⟩
        ⟨1280, 720, 640, 480⟩ initialState
        [([⟨"dog", 9/10, 0, 0, 10, 10⟩], 0)]).alerts.length = 0) := by
  refine ⟨?_, ?_, ?_⟩ <;>
    norm_num [runLoop, processFrame, processBox, should_send_alert, lookupTime,
      initialState, insertSet]

end AnimalRepellent
